import Mathlib

/-!
Verification of the TalaFood pantry-scanner application.

The development shallowly embeds the application logic of `src/App.tsx`,
`src/services/geminiService.ts` and `src/unnamed/part_000` (the shared type
declarations).  React `useState` slots become fields of an explicit
`AppState` record; each event handler becomes a pure function
`AppState → AppState` (asynchronous service results are passed in as
explicit `Except` values, mirroring the resolved/rejected promise).
JavaScript string truthiness (`!s`) is modelled by comparison with the
empty string; `null` becomes `Option`.
-/

namespace TalaFood

/-- The Product interface from `src/unnamed/part_000` (the repository type
module): a saved pantry item. -/
structure Product where
  id : String
  name : String
  expiryDate : String
  nameImageBase64 : String
  expiryImageBase64 : String
  scannedAt : String
  deriving DecidableEq, Repr

/-- The ScanStage enum from the type module. -/
inductive ScanStage where
  | IDLE
  | AWAITING_NAME_IMAGE
  | PROCESSING_NAME_IMAGE
  | AWAITING_EXPIRY_IMAGE
  | PROCESSING_EXPIRY_IMAGE
  | CONFIRM_DETAILS
  deriving DecidableEq, Repr

/-- The `useState` slots of the `App` component in `src/App.tsx` that drive
the scan workflow and the inventory collection.  `string | null` slots are
`Option String`; the recipe-feature slots are independent of the claims
about the scan workflow and are omitted from this record (the recipe
service is modelled separately below). -/
structure AppState where
  scanStage : ScanStage
  products : List Product
  currentNameImage : Option String
  currentExpiryImage : Option String
  extractedName : String
  editedName : String
  extractedExpiry : String
  editedExpiry : String
  error : Option String
  deriving DecidableEq, Repr

/-- The initial values of the `useState` slots in `src/App.tsx`. -/
def initialState : AppState :=
  { scanStage := ScanStage.IDLE
    products := []
    currentNameImage := none
    currentExpiryImage := none
    extractedName := ""
    editedName := ""
    extractedExpiry := ""
    editedExpiry := ""
    error := none }

/-- Model of `resetScanState` from `src/App.tsx` (lines 55-63): clears both captured
images, all extracted/edited text, and the error slot.  It does not touch
the stage or the products list. -/
def resetScanState (s : AppState) : AppState :=
  { s with
    currentNameImage := none
    currentExpiryImage := none
    extractedName := ""
    editedName := ""
    extractedExpiry := ""
    editedExpiry := ""
    error := none }

/-- Model of `handleStartScan` from `src/App.tsx`: reset the session, then move to
`AWAITING_NAME_IMAGE`. -/
def handleStartScan (s : AppState) : AppState :=
  { resetScanState s with scanStage := ScanStage.AWAITING_NAME_IMAGE }

/-- JavaScript truthiness of a `string | null` value: `null` and the empty
string are falsy. -/
def strOptTruthy : Option String → Bool
  | none => false
  | some str => str ≠ ""

/-- Model of the JavaScript `String.prototype.trim` used throughout the
source: drop leading and trailing whitespace characters.  Stated
structurally over the character list so that it evaluates by kernel
reduction. -/
def jsTrim (s : String) : String :=
  String.mk (((s.data.dropWhile Char.isWhitespace).reverse.dropWhile
    Char.isWhitespace).reverse)

/-- Model of `handleSaveProduct` from `src/App.tsx` (lines 108-129).  `newId` stands
for the `crypto.randomUUID()` result and `ts` for
`new Date().toISOString()`; both are opaque environment inputs.  The guard
`!editedName.trim()` is JS falsiness of the trimmed string, and
`!currentNameImage || !currentExpiryImage` is JS falsiness of the nullable
image slots. -/
def handleSaveProduct (newId ts : String) (s : AppState) : AppState :=
  if jsTrim s.editedName = "" then
    { s with error := some "Product name cannot be empty." }
  else if ¬ (strOptTruthy s.currentNameImage ∧ strOptTruthy s.currentExpiryImage) then
    { s with error := some "Both product name and expiry images are required." }
  else
    let newProduct : Product :=
      { id := newId
        name := jsTrim s.editedName
        expiryDate := jsTrim s.editedExpiry
        nameImageBase64 := s.currentNameImage.getD ""
        expiryImageBase64 := s.currentExpiryImage.getD ""
        scannedAt := ts }
    resetScanState
      { s with
        products := newProduct :: s.products
        scanStage := ScanStage.IDLE }

/-- Model of `handleCancelScan` from `src/App.tsx` (lines 131-134): back to `IDLE`
and clear the session. -/
def handleCancelScan (s : AppState) : AppState :=
  { resetScanState s with scanStage := ScanStage.IDLE }

/-- Model of `handleDeleteProduct` from `src/App.tsx` (lines 136-138): keep every
product whose id differs from the given one. -/
def handleDeleteProduct (productId : String) (s : AppState) : AppState :=
  { s with products := s.products.filter (fun p => p.id ≠ productId) }

/-- The "Retake All" button of the `CONFIRM_DETAILS` branch of
`renderContent` in `src/App.tsx` (line 260): its `onClick` is exactly
`setScanStage(ScanStage.AWAITING_NAME_IMAGE)` and nothing else. -/
def handleRetakeAll (s : AppState) : AppState :=
  { s with scanStage := ScanStage.AWAITING_NAME_IMAGE }

/-- Model of `handleNameImageCapture` from `src/App.tsx` (lines 70-87).  The
captured image is stored and the stage moves to `PROCESSING_NAME_IMAGE`
before the extraction round trip; `extraction` is the resolved or rejected
result of `extractTextFromImage` (`.error` carries the user-readable
message the handler stores).  On success the text is stored twice and the
stage advances; on failure the error is stored and the stage returns to
`AWAITING_NAME_IMAGE`. -/
def handleNameImageCapture (img : String) (extraction : Except String String)
    (s : AppState) : AppState :=
  let s1 := { s with
    currentNameImage := some img
    scanStage := ScanStage.PROCESSING_NAME_IMAGE
    error := none }
  match extraction with
  | Except.ok name =>
      { s1 with
        extractedName := name
        editedName := name
        scanStage := ScanStage.AWAITING_EXPIRY_IMAGE }
  | Except.error msg =>
      { s1 with
        error := some msg
        scanStage := ScanStage.AWAITING_NAME_IMAGE }

/-- Model of `handleExpiryImageCapture` from `src/App.tsx` (lines 89-106), symmetric
to the name-image handler. -/
def handleExpiryImageCapture (img : String) (extraction : Except String String)
    (s : AppState) : AppState :=
  let s1 := { s with
    currentExpiryImage := some img
    scanStage := ScanStage.PROCESSING_EXPIRY_IMAGE
    error := none }
  match extraction with
  | Except.ok expiry =>
      { s1 with
        extractedExpiry := expiry
        editedExpiry := expiry
        scanStage := ScanStage.CONFIRM_DETAILS }
  | Except.error msg =>
      { s1 with
        error := some msg
        scanStage := ScanStage.AWAITING_EXPIRY_IMAGE }

/-- The startup `useEffect` of `src/App.tsx` (lines 33-43).  `stored` is
the result of reading the `pantryProducts` slot of `localStorage` (`none`
when absent) and `parse` stands for the host `JSON.parse` followed by the implicit cast to
`Product[]`, returning `.error` with the exception message when parsing
throws.  `if (storedProducts)` is JS truthiness, so an absent or empty
payload is skipped silently; only a thrown parse error reaches the `catch`
that sets the warning. -/
def loadProductsEffect (stored : Option String)
    (parse : String → Except String (List Product)) (s : AppState) : AppState :=
  match stored with
  | none => s
  | some str =>
      if str = "" then s
      else
        match parse str with
        | Except.ok ps => { s with products := ps }
        | Except.error _ => { s with error := some "Could not load saved products." }

/-! ### The recipe-suggestion service (`src/services/geminiService.ts`) -/

/-- A JSON value, as produced by the host `JSON.parse`.  Claims about the
service depend only on whether parsing succeeds and on the parsed value
being handed back untouched, so numbers are modelled as integers. -/
inductive Json where
  | null
  | bool (b : Bool)
  | num (n : Int)
  | str (str : String)
  | arr (xs : List Json)
  | obj (fields : List (String × Json))

/-- Whether `pat` is an initial segment of `s` (character lists). -/
def charsBeginWith : List Char → List Char → Bool
  | [], _ => true
  | _ :: _, [] => false
  | p :: ps, c :: cs => p = c && charsBeginWith ps cs

/-- Whether `pat` occurs contiguously somewhere inside `s` (character
lists). -/
def charsContain (pat : List Char) : List Char → Bool
  | [] => pat.isEmpty
  | c :: cs => charsBeginWith pat (c :: cs) || charsContain pat cs

/-- Model of the JavaScript `String.prototype.includes` used by the error
classification: whether `pat` occurs as a substring of `s`.  Stated
structurally over the character lists so that it evaluates by kernel
reduction. -/
def jsIncludes (s pat : String) : Bool :=
  charsContain pat.data s.data

/-- The `catch` block of `suggestRecipesFromIngredients`
(`src/services/geminiService.ts`, lines 122-133): map the message of the
caught error to the message of the rethrown error. -/
def classifyRecipeError (msg : String) : String :=
  if jsIncludes msg "API key not valid" then
    "Invalid Gemini API Key. Please check your configuration."
  else if jsIncludes msg "quota" then
    "Gemini API quota exceeded. Please check your usage or billing."
  else
    "Failed to suggest recipes using Gemini API. Check console for details."

/-- Model of `suggestRecipesFromIngredients` from `src/services/geminiService.ts`
(lines 72-134).  `apiKeySet` is whether `process.env.API_KEY` is set;
`svc` is the outcome of the `ai.models.generateContent` round trip
(`.ok` carries `response.text`, `.error` the message of the thrown error);
`parse` stands for the host `JSON.parse` (`.error` carries the message of
the thrown SyntaxError).  The function returns the parsed value with no
schema validation — its TypeScript return type is `Promise<any>`.  Both
the service call and `JSON.parse` sit inside the same `try`, so a parse
failure also goes through `classifyRecipeError`. -/
def suggestRecipesFromIngredients (apiKeySet : Bool) (ingredients : List String)
    (svc : Except String String) (parse : String → Except String Json) :
    Except String Json :=
  if ¬ apiKeySet then
    Except.error "Gemini API Key is not configured."
  else if ingredients.isEmpty then
    Except.error "No ingredients provided to suggest recipes."
  else
    match svc with
    | Except.error msg => Except.error (classifyRecipeError msg)
    | Except.ok text =>
        let jsonText := jsTrim text
        if jsonText = "" then Except.ok (Json.arr [])
        else
          match parse jsonText with
          | Except.ok v => Except.ok v
          | Except.error msg => Except.error (classifyRecipeError msg)

/-! ### Helper lemmas about the save action -/

/-- On a state whose nullable image slots never hold the empty string (the
camera only ever yields non-empty data URLs), JS truthiness of an image
slot coincides with the slot being non-null. -/
theorem strOptTruthy_eq_isSome (o : Option String) (h : o ≠ some "") :
    strOptTruthy o = o.isSome := by
  cases o with
  | none => rfl
  | some str =>
      have hne : str ≠ "" := fun hstr => h (by rw [hstr])
      simp [strOptTruthy, hne]

/-- Save with an all-whitespace edited name: only the error slot changes. -/
theorem handleSaveProduct_name_empty (newId ts : String) (s : AppState)
    (h : jsTrim s.editedName = "") :
    handleSaveProduct newId ts s
      = { s with error := some "Product name cannot be empty." } := by
  unfold handleSaveProduct
  rw [if_pos h]

/-- Save with a missing (falsy) image: only the error slot changes. -/
theorem handleSaveProduct_image_missing (newId ts : String) (s : AppState)
    (h1 : jsTrim s.editedName ≠ "")
    (h2 : ¬ (strOptTruthy s.currentNameImage ∧ strOptTruthy s.currentExpiryImage)) :
    handleSaveProduct newId ts s
      = { s with error := some "Both product name and expiry images are required." } := by
  unfold handleSaveProduct
  rw [if_neg h1, if_pos h2]

/-- Successful save: the new record is prepended, the stage returns to
`IDLE`, and the session is reset. -/
theorem handleSaveProduct_success (newId ts : String) (s : AppState)
    (h1 : jsTrim s.editedName ≠ "")
    (h2 : strOptTruthy s.currentNameImage)
    (h3 : strOptTruthy s.currentExpiryImage) :
    handleSaveProduct newId ts s =
      { scanStage := ScanStage.IDLE
        products :=
          { id := newId
            name := jsTrim s.editedName
            expiryDate := jsTrim s.editedExpiry
            nameImageBase64 := s.currentNameImage.getD ""
            expiryImageBase64 := s.currentExpiryImage.getD ""
            scannedAt := ts } :: s.products
        currentNameImage := none
        currentExpiryImage := none
        extractedName := ""
        editedName := ""
        extractedExpiry := ""
        editedExpiry := ""
        error := none } := by
  unfold handleSaveProduct
  rw [if_neg h1, if_neg (by simp [h2, h3])]
  rfl

/-! ### Claim theorems -/

/-- C1: in the `ConfirmDetails` stage, the save action succeeds — creating
a record (prepended to the collection) and returning the stage to `Idle` —
if and only if the trimmed edited name is non-empty and both the name
image and the expiry image are present in the session; otherwise no record
is created, the stage remains `ConfirmDetails`, and an error message is
set.  The hypotheses `hn`, `he` record that an image slot never holds the
empty string (the camera yields non-empty data URLs), so presence is
non-nullness. -/
theorem confirmDetails_save_iff (newId ts : String) (s : AppState)
    (hst : s.scanStage = ScanStage.CONFIRM_DETAILS)
    (hn : s.currentNameImage ≠ some "")
    (he : s.currentExpiryImage ≠ some "") :
    (jsTrim s.editedName ≠ "" ∧ s.currentNameImage.isSome ∧ s.currentExpiryImage.isSome →
      ∃ p : Product,
        p.name = jsTrim s.editedName ∧
        (handleSaveProduct newId ts s).products = p :: s.products ∧
        (handleSaveProduct newId ts s).scanStage = ScanStage.IDLE) ∧
    (¬ (jsTrim s.editedName ≠ "" ∧ s.currentNameImage.isSome ∧ s.currentExpiryImage.isSome) →
      (handleSaveProduct newId ts s).products = s.products ∧
      (handleSaveProduct newId ts s).scanStage = ScanStage.CONFIRM_DETAILS ∧
      (handleSaveProduct newId ts s).error.isSome) := by
  have hnt := strOptTruthy_eq_isSome s.currentNameImage hn
  have het := strOptTruthy_eq_isSome s.currentExpiryImage he
  constructor
  · rintro ⟨h1, h2, h3⟩
    rw [handleSaveProduct_success newId ts s h1 (by rw [hnt]; exact h2)
      (by rw [het]; exact h3)]
    exact ⟨_, rfl, rfl, rfl⟩
  · intro hfail
    by_cases h1 : jsTrim s.editedName = ""
    · rw [handleSaveProduct_name_empty newId ts s h1]
      exact ⟨rfl, hst, rfl⟩
    · have h23 : ¬ (strOptTruthy s.currentNameImage ∧ strOptTruthy s.currentExpiryImage) := by
        rw [hnt, het]
        intro ⟨h2, h3⟩
        exact hfail ⟨h1, h2, h3⟩
      rw [handleSaveProduct_image_missing newId ts s h1 h23]
      exact ⟨rfl, hst, rfl⟩

/-- A concrete session in the `CONFIRM_DETAILS` stage with both images
captured and a non-empty name, as produced by a successful two-photo scan. -/
def confirmReadyState : AppState :=
  { scanStage := ScanStage.CONFIRM_DETAILS
    products := []
    currentNameImage := some "data:image/jpeg;base64,QUFB"
    currentExpiryImage := some "data:image/jpeg;base64,QkJC"
    extractedName := "Oats"
    editedName := "Oats"
    extractedExpiry := "2025-01-01"
    editedExpiry := "2025-01-01"
    error := none }

/-- Witness for C1 at a concrete ready-to-save session. -/
theorem confirmDetails_save_iff_witness :
    (jsTrim confirmReadyState.editedName ≠ "" ∧
        confirmReadyState.currentNameImage.isSome ∧
        confirmReadyState.currentExpiryImage.isSome →
      ∃ p : Product,
        p.name = jsTrim confirmReadyState.editedName ∧
        (handleSaveProduct "id-1" "2025-06-01T00:00:00Z" confirmReadyState).products
          = p :: confirmReadyState.products ∧
        (handleSaveProduct "id-1" "2025-06-01T00:00:00Z" confirmReadyState).scanStage
          = ScanStage.IDLE) ∧
    (¬ (jsTrim confirmReadyState.editedName ≠ "" ∧
        confirmReadyState.currentNameImage.isSome ∧
        confirmReadyState.currentExpiryImage.isSome) →
      (handleSaveProduct "id-1" "2025-06-01T00:00:00Z" confirmReadyState).products
        = confirmReadyState.products ∧
      (handleSaveProduct "id-1" "2025-06-01T00:00:00Z" confirmReadyState).scanStage
        = ScanStage.CONFIRM_DETAILS ∧
      (handleSaveProduct "id-1" "2025-06-01T00:00:00Z" confirmReadyState).error.isSome) :=
  confirmDetails_save_iff "id-1" "2025-06-01T00:00:00Z" confirmReadyState
    rfl (by decide) (by decide)

/-- A concrete `CONFIRM_DETAILS` session used to exercise the Retake All
button: both images captured, text extracted and edited. -/
def retakeDemoState : AppState :=
  { scanStage := ScanStage.CONFIRM_DETAILS
    products := []
    currentNameImage := some "data:image/jpeg;base64,TkFNRQ"
    currentExpiryImage := some "data:image/jpeg;base64,RVhQ"
    extractedName := "Milk"
    editedName := "Milk"
    extractedExpiry := "2024-12-31"
    editedExpiry := "2024-12-31"
    error := none }

/-- C2 counterexample: at a concrete `CONFIRM_DETAILS` session, Retake All
moves the stage to `AWAITING_NAME_IMAGE` but clears neither the captured
images nor the extracted/edited text, refuting the claim that the session
is cleared. -/
theorem retakeAll_not_cleared :
    (handleRetakeAll retakeDemoState).scanStage = ScanStage.AWAITING_NAME_IMAGE ∧
    ¬ ((handleRetakeAll retakeDemoState).currentNameImage = none ∧
       (handleRetakeAll retakeDemoState).currentExpiryImage = none ∧
       (handleRetakeAll retakeDemoState).extractedName = "" ∧
       (handleRetakeAll retakeDemoState).editedName = "" ∧
       (handleRetakeAll retakeDemoState).extractedExpiry = "" ∧
       (handleRetakeAll retakeDemoState).editedExpiry = "") := by
  decide

/-- C2 amended: Retake All moves the stage to `AWAITING_NAME_IMAGE` and
changes nothing else — the captured images, the extracted/edited text, the
error slot and the collection are all retained (stale values are only
overwritten by the subsequent re-captures). -/
theorem retakeAll_only_changes_stage (s : AppState) :
    (handleRetakeAll s).scanStage = ScanStage.AWAITING_NAME_IMAGE ∧
    (handleRetakeAll s).currentNameImage = s.currentNameImage ∧
    (handleRetakeAll s).currentExpiryImage = s.currentExpiryImage ∧
    (handleRetakeAll s).extractedName = s.extractedName ∧
    (handleRetakeAll s).editedName = s.editedName ∧
    (handleRetakeAll s).extractedExpiry = s.extractedExpiry ∧
    (handleRetakeAll s).editedExpiry = s.editedExpiry ∧
    (handleRetakeAll s).error = s.error ∧
    (handleRetakeAll s).products = s.products := by
  simp [handleRetakeAll]

/-- A fresh session awaiting the first photo, with nothing captured yet. -/
def awaitingNameState : AppState :=
  { scanStage := ScanStage.AWAITING_NAME_IMAGE
    products := []
    currentNameImage := none
    currentExpiryImage := none
    extractedName := ""
    editedName := ""
    extractedExpiry := ""
    editedExpiry := ""
    error := none }

/-- C3 counterexample: a name-image capture whose extraction fails does
leave something new in the session — the freshly captured name image is
stored (it was `none` before the attempt and is the captured data URL
afterwards), refuting "the session retains nothing new from the failed
attempt". -/
theorem nameFailure_retains_image :
    awaitingNameState.currentNameImage = none ∧
    (handleNameImageCapture "data:image/jpeg;base64,TkFNRQ"
        (Except.error "Gemini API quota exceeded. Please check your usage or billing.")
        awaitingNameState).currentNameImage
      = some "data:image/jpeg;base64,TkFNRQ" := by
  decide

/-- C3 amended: on every extraction failure during name-image processing,
the captured name image is stored in the session, the error message is
attached, and the stage returns to `AWAITING_NAME_IMAGE` (never `IDLE`);
the other captured image, all text fields and the collection are left
intact. -/
theorem nameFailure_returns_awaiting (s : AppState) (img msg : String) :
    (handleNameImageCapture img (Except.error msg) s).scanStage
      = ScanStage.AWAITING_NAME_IMAGE ∧
    (handleNameImageCapture img (Except.error msg) s).error = some msg ∧
    (handleNameImageCapture img (Except.error msg) s).currentNameImage = some img ∧
    (handleNameImageCapture img (Except.error msg) s).currentExpiryImage
      = s.currentExpiryImage ∧
    (handleNameImageCapture img (Except.error msg) s).extractedName = s.extractedName ∧
    (handleNameImageCapture img (Except.error msg) s).editedName = s.editedName ∧
    (handleNameImageCapture img (Except.error msg) s).extractedExpiry
      = s.extractedExpiry ∧
    (handleNameImageCapture img (Except.error msg) s).editedExpiry = s.editedExpiry ∧
    (handleNameImageCapture img (Except.error msg) s).products = s.products := by
  simp [handleNameImageCapture]

/-- A ready-to-save session whose edited expiry text carries surrounding
whitespace, exactly as the user confirmed it. -/
def paddedExpiryState : AppState :=
  { scanStage := ScanStage.CONFIRM_DETAILS
    products := []
    currentNameImage := some "data:image/jpeg;base64,TkFNRQ"
    currentExpiryImage := some "data:image/jpeg;base64,RVhQ"
    extractedName := "Milk"
    editedName := "Milk"
    extractedExpiry := " 2025-01-01 "
    editedExpiry := " 2025-01-01 "
    error := none }

/-- C4 counterexample: saving a session whose confirmed expiry text is
padded with whitespace stores the trimmed text, not the confirmed text
as-is — the saved `expiryDate` differs from the edited field. -/
theorem expiry_not_preserved_as_is :
    (handleSaveProduct "id-4" "2025-06-01T00:00:00Z" paddedExpiryState).products.map
        Product.expiryDate = ["2025-01-01"] ∧
    paddedExpiryState.editedExpiry = " 2025-01-01 " ∧
    ("2025-01-01" : String) ≠ " 2025-01-01 " := by
  decide

/-- C4 amended: the `expiryDate` of a saved record is the
whitespace-trimmed edited-expiry text (so the confirmed text is preserved
as-is exactly when it has no leading or trailing whitespace). -/
theorem saved_expiry_is_trimmed (newId ts : String) (s : AppState)
    (h1 : jsTrim s.editedName ≠ "")
    (h2 : strOptTruthy s.currentNameImage)
    (h3 : strOptTruthy s.currentExpiryImage) :
    ∃ p : Product,
      (handleSaveProduct newId ts s).products = p :: s.products ∧
      p.expiryDate = jsTrim s.editedExpiry := by
  rw [handleSaveProduct_success newId ts s h1 h2 h3]
  exact ⟨_, rfl, rfl⟩

/-- Witness for C4 at the padded-expiry session. -/
theorem saved_expiry_is_trimmed_witness :
    ∃ p : Product,
      (handleSaveProduct "id-4" "2025-06-01T00:00:00Z" paddedExpiryState).products
        = p :: paddedExpiryState.products ∧
      p.expiryDate = jsTrim paddedExpiryState.editedExpiry :=
  saved_expiry_is_trimmed "id-4" "2025-06-01T00:00:00Z" paddedExpiryState
    (by decide) (by decide) (by decide)

/-- C5 counterexample: when the stored payload is absent, the collection
does start empty and nothing throws, but no warning is surfaced — the
error slot stays `none`, refuting "a non-fatal warning is surfaced" for
every absent/empty/unparsable payload. -/
theorem load_absent_no_warning :
    (loadProductsEffect none (fun _ => Except.error "SyntaxError: Unexpected token")
        initialState).products = [] ∧
    (loadProductsEffect none (fun _ => Except.error "SyntaxError: Unexpected token")
        initialState).error = none := by
  constructor <;> rfl

/-- C5 amended: for every stored payload that is absent, empty, or fails
to parse, the inventory collection starts empty and no exception escapes
(the load is a total function), but a warning is surfaced only in the
parse-failure case; absent and empty payloads are skipped silently with no
warning. -/
theorem load_startup_behaviour (parse : String → Except String (List Product))
    (str msg : String) (hne : str ≠ "") (hfail : parse str = Except.error msg) :
    ((loadProductsEffect none parse initialState).products = [] ∧
      (loadProductsEffect none parse initialState).error = none) ∧
    ((loadProductsEffect (some "") parse initialState).products = [] ∧
      (loadProductsEffect (some "") parse initialState).error = none) ∧
    ((loadProductsEffect (some str) parse initialState).products = [] ∧
      (loadProductsEffect (some str) parse initialState).error
        = some "Could not load saved products.") := by
  refine ⟨⟨rfl, rfl⟩, ⟨rfl, rfl⟩, ?_, ?_⟩ <;>
    simp [loadProductsEffect, hne, hfail, initialState]

/-- Witness for C5 at a concrete unparsable payload. -/
theorem load_startup_behaviour_witness :
    ((loadProductsEffect none (fun _ => Except.error "SyntaxError: Unexpected token n")
        initialState).products = [] ∧
      (loadProductsEffect none (fun _ => Except.error "SyntaxError: Unexpected token n")
        initialState).error = none) ∧
    ((loadProductsEffect (some "") (fun _ => Except.error "SyntaxError: Unexpected token n")
        initialState).products = [] ∧
      (loadProductsEffect (some "") (fun _ => Except.error "SyntaxError: Unexpected token n")
        initialState).error = none) ∧
    ((loadProductsEffect (some "not json") (fun _ => Except.error "SyntaxError: Unexpected token n")
        initialState).products = [] ∧
      (loadProductsEffect (some "not json") (fun _ => Except.error "SyntaxError: Unexpected token n")
        initialState).error = some "Could not load saved products.") :=
  load_startup_behaviour (fun _ => Except.error "SyntaxError: Unexpected token n")
    "not json" "SyntaxError: Unexpected token n" (by decide) rfl

/-! ### The inventory store operations (list-level view) -/

/-- The collection updater of `handleSaveProduct` (`src/App.tsx` line 126):
`setProducts(prevProducts => [newProduct, ...prevProducts])`. -/
def addProduct (p : Product) (ps : List Product) : List Product :=
  p :: ps

/-- The collection updater of `handleDeleteProduct` (`src/App.tsx` lines
136-138): `prevProducts.filter(p => p.id !== productId)`. -/
def removeProduct (productId : String) (ps : List Product) : List Product :=
  ps.filter (fun q => q.id ≠ productId)

/-- A record already in the collection. -/
def oatsProduct : Product :=
  { id := "a"
    name := "Oats"
    expiryDate := "2025-01-01"
    nameImageBase64 := "data:image/jpeg;base64,QQ"
    expiryImageBase64 := "data:image/jpeg;base64,Qg"
    scannedAt := "2025-05-01T00:00:00Z" }

/-- A distinct record that reuses the id of `oatsProduct`. -/
def riceProductSameId : Product :=
  { id := "a"
    name := "Rice"
    expiryDate := "2026-01-01"
    nameImageBase64 := "data:image/jpeg;base64,Qw"
    expiryImageBase64 := "data:image/jpeg;base64,RA"
    scannedAt := "2025-05-02T00:00:00Z" }

/-- C7 counterexample: when the added record reuses an id already present
in the collection, `remove` strips both records, so add-then-remove does
not restore the pre-add collection. -/
theorem add_remove_not_inverse_on_duplicate_id :
    removeProduct riceProductSameId.id (addProduct riceProductSameId [oatsProduct])
      ≠ [oatsProduct] := by
  decide

/-- C7 amended: for every collection and every record whose id does not
already occur in the collection (the code assigns fresh `crypto.randomUUID()`
ids, so this holds for every record the app itself creates), `add` followed
by `remove` of that id restores the pre-add collection, in order and
contents. -/
theorem add_remove_inverse (p : Product) (ps : List Product)
    (h : ∀ q ∈ ps, q.id ≠ p.id) :
    removeProduct p.id (addProduct p ps) = ps := by
  unfold addProduct removeProduct
  rw [List.filter_cons_of_neg (by simp)]
  exact List.filter_eq_self.mpr (fun q hq => by simpa using h q hq)

/-- Witness for C7: adding a fresh-id record to a singleton collection and
removing it restores the collection. -/
theorem add_remove_inverse_witness :
    removeProduct "b"
        (addProduct { oatsProduct with id := "b", name := "Rice" } [oatsProduct])
      = [oatsProduct] :=
  add_remove_inverse { oatsProduct with id := "b", name := "Rice" } [oatsProduct]
    (by decide)

/-- Sequential `add` calls, oldest first: the state of the collection after
the scan workflow saves each record of `records` in turn. -/
def addAll (ps records : List Product) : List Product :=
  records.foldl (fun acc r => addProduct r acc) ps

/-- C8: for every starting collection and every sequence of records saved
in order, each `add` prepends, so the resulting collection is the new
records in reverse-chronological insertion order (most-recently-added
first) followed by the starting collection. -/
theorem addAll_reverse_chronological (ps records : List Product) :
    addAll ps records = records.reverse ++ ps := by
  induction records generalizing ps with
  | nil => rfl
  | cons r rs ih =>
      show addAll (addProduct r ps) rs = (r :: rs).reverse ++ ps
      rw [ih]
      simp [addProduct]

/-- C9: canceling a scan from any non-`IDLE` stage returns the stage to
`IDLE` with an empty scan session: both captured images `none`, all
extracted/edited text empty, and no error message retained.  (The products
collection is untouched.) -/
theorem cancel_returns_to_idle (s : AppState) (_h : s.scanStage ≠ ScanStage.IDLE) :
    (handleCancelScan s).scanStage = ScanStage.IDLE ∧
    (handleCancelScan s).currentNameImage = none ∧
    (handleCancelScan s).currentExpiryImage = none ∧
    (handleCancelScan s).extractedName = "" ∧
    (handleCancelScan s).editedName = "" ∧
    (handleCancelScan s).extractedExpiry = "" ∧
    (handleCancelScan s).editedExpiry = "" ∧
    (handleCancelScan s).error = none ∧
    (handleCancelScan s).products = s.products := by
  simp [handleCancelScan, resetScanState]

/-- Witness for C9 at a concrete mid-scan session. -/
theorem cancel_returns_to_idle_witness :
    (handleCancelScan retakeDemoState).scanStage = ScanStage.IDLE ∧
    (handleCancelScan retakeDemoState).currentNameImage = none ∧
    (handleCancelScan retakeDemoState).currentExpiryImage = none ∧
    (handleCancelScan retakeDemoState).extractedName = "" ∧
    (handleCancelScan retakeDemoState).editedName = "" ∧
    (handleCancelScan retakeDemoState).extractedExpiry = "" ∧
    (handleCancelScan retakeDemoState).editedExpiry = "" ∧
    (handleCancelScan retakeDemoState).error = none ∧
    (handleCancelScan retakeDemoState).products = retakeDemoState.products :=
  cancel_returns_to_idle retakeDemoState (by decide)

/-- C6 counterexample: an unparsable non-empty response does not always
fail with the generic service error.  The `catch` of
`suggestRecipesFromIngredients` reclassifies the caught exception by
substring of its message, and `JSON.parse` error messages embed a snippet
of the unparsable input (V8 reports the offending text), so a prose
response that happens to contain the word "quota" is rethrown as the
quota-exceeded message instead.  Here the model replies with prose rather
than JSON, the parse-error message quotes it, and the call fails with the
quota message, which differs from the generic service-error message the
claim requires. -/
theorem suggestRecipes_unparsable_quota_misclassified :
    jsTrim "quota exceeded, try again later" ≠ "" ∧
    suggestRecipesFromIngredients true ["eggs", "bread"]
        (Except.ok "quota exceeded, try again later")
        (fun _ => Except.error
          "Unexpected token q, quota exce... is not valid JSON")
      = Except.error "Gemini API quota exceeded. Please check your usage or billing." ∧
    ("Gemini API quota exceeded. Please check your usage or billing." : String)
      ≠ "Failed to suggest recipes using Gemini API. Check console for details." :=
  ⟨by decide, rfl, by decide⟩

/-- C6 amended: for every non-empty `itemNames` input (with the credential
set): if the raw response text is empty after trimming, the result is the
empty sequence and no error is raised; if the raw text is non-empty but
`JSON.parse` rejects it, the call always fails, with the message obtained
by substring classification of the parse-error message — the generic
service error exactly when that message mentions neither "API key not
valid" nor "quota", and the auth/quota message otherwise (so a parse error
quoting input that contains those substrings is misclassified). -/
theorem suggestRecipes_empty_or_classified_failure (ingredients : List String)
    (parse : String → Except String Json) (text msg : String)
    (hing : ingredients ≠ []) :
    (jsTrim text = "" →
      suggestRecipesFromIngredients true ingredients (Except.ok text) parse
        = Except.ok (Json.arr [])) ∧
    (jsTrim text ≠ "" → parse (jsTrim text) = Except.error msg →
      suggestRecipesFromIngredients true ingredients (Except.ok text) parse
        = Except.error (classifyRecipeError msg)) ∧
    (¬ jsIncludes msg "API key not valid" → ¬ jsIncludes msg "quota" →
      classifyRecipeError msg
        = "Failed to suggest recipes using Gemini API. Check console for details.") := by
  have hempty : ingredients.isEmpty = false := by
    simpa [List.isEmpty_iff] using hing
  refine ⟨fun htrim => ?_, fun htrim hparse => ?_, fun hm1 hm2 => ?_⟩
  · simp [suggestRecipesFromIngredients, hempty, htrim]
  · simp [suggestRecipesFromIngredients, hempty, htrim, hparse]
  · simp [classifyRecipeError, hm1, hm2]

/-- Witness for C6: a two-item pantry and an unparsable raw response whose
parse-error message mentions neither the credential nor the quota, so the
failure is the generic service error. -/
theorem suggestRecipes_empty_or_classified_failure_witness :
    (jsTrim "not json" = "" →
      suggestRecipesFromIngredients true ["eggs", "bread"] (Except.ok "not json")
          (fun _ => Except.error "Unexpected token n, not json is not valid JSON")
        = Except.ok (Json.arr [])) ∧
    (jsTrim "not json" ≠ "" →
      (fun _ => Except.error "Unexpected token n, not json is not valid JSON" :
          String → Except String Json) (jsTrim "not json")
        = Except.error "Unexpected token n, not json is not valid JSON" →
      suggestRecipesFromIngredients true ["eggs", "bread"] (Except.ok "not json")
          (fun _ => Except.error "Unexpected token n, not json is not valid JSON")
        = Except.error
            (classifyRecipeError "Unexpected token n, not json is not valid JSON")) ∧
    (¬ jsIncludes "Unexpected token n, not json is not valid JSON" "API key not valid" →
      ¬ jsIncludes "Unexpected token n, not json is not valid JSON" "quota" →
      classifyRecipeError "Unexpected token n, not json is not valid JSON"
        = "Failed to suggest recipes using Gemini API. Check console for details.") :=
  suggestRecipes_empty_or_classified_failure ["eggs", "bread"]
    (fun _ => Except.error "Unexpected token n, not json is not valid JSON")
    "not json" "Unexpected token n, not json is not valid JSON"
    (by decide)

/-- C10: for every non-empty `itemNames` input and every non-empty
response text that `JSON.parse` accepts, `suggestRecipes` returns exactly
the parsed JSON value — `v` here is arbitrary, so a value lacking the
`recipeName`, `ingredients` or `instructions` fields is returned as-is
rather than rejected; no validation against the recipe shape happens. -/
theorem suggestRecipes_no_shape_validation (ingredients : List String)
    (parse : String → Except String Json) (text : String) (v : Json)
    (hing : ingredients ≠ [])
    (htrim : jsTrim text ≠ "")
    (hparse : parse (jsTrim text) = Except.ok v) :
    suggestRecipesFromIngredients true ingredients (Except.ok text) parse
      = Except.ok v := by
  have hempty : ingredients.isEmpty = false := by
    simpa [List.isEmpty_iff] using hing
  simp [suggestRecipesFromIngredients, hempty, htrim, hparse]

/-- Witness for C10: a parsed object with none of the recipe fields is
handed back untouched. -/
theorem suggestRecipes_no_shape_validation_witness :
    suggestRecipesFromIngredients true ["eggs", "bread"]
        (Except.ok "\x7b\x22foo\x22:1\x7d")
        (fun _ => Except.ok (Json.obj [("foo", Json.num 1)]))
      = Except.ok (Json.obj [("foo", Json.num 1)]) :=
  suggestRecipes_no_shape_validation ["eggs", "bread"]
    (fun _ => Except.ok (Json.obj [("foo", Json.num 1)]))
    "\x7b\x22foo\x22:1\x7d" (Json.obj [("foo", Json.num 1)])
    (by decide) (by decide) rfl

end TalaFood
